import Mathlib

/-!
Shallow embedding of the V2Libraries firmware control loops:

* `V2Buttons` — the button debounce/classification state machine
  (src/Buttons/V2Buttons.cpp, src/V2Buttons.h),
* `V2Solenoids` — the solenoid power controller state machine
  (the `V2Solenoids` template class),
* `V2Device.handleSystemExclusive` — the JSON/SysEx request dispatch guard
  (src/Device/V2Device.cpp),
* `V2Base.getUsecSince` — wraparound-safe elapsed-time computation
  (src/V2Base.h).

Machine integers are modelled as `Nat` with explicit reduction modulo
`2^32` (`uint32_t` / 32-bit `unsigned long`) or `256` (`uint8_t`) where
the C++ arithmetic can overflow.  `float` quantities of the solenoid
controller are modelled as `ℚ` (exact arithmetic standing in for IEEE
floats; none of the proved properties depends on rounding).  Virtual
handler methods (`handleDown`, `handleClick(count)`, ...) and hardware
side effects become explicit event/effect lists; each `loop()` call takes
the value of `micros()` as an explicit `now` argument.
-/

/-- `2^32`, the modulus of `uint32_t` / 32-bit `unsigned long` arithmetic. -/
def U32 : Nat := 4294967296

/-- Unsigned 32-bit subtraction `now - since`: the value of
`(uint32_t)(now - since)` for counter values `now`, `since`.
Used by every elapsed-time comparison in the sources. -/
def sub32 (now since : Nat) : Nat :=
  (now % U32 + U32 - since % U32) % U32

namespace V2Base

/-- `V2Base::getUsecSince(since)`: `(uint32_t)(micros() - since)`,
with the current counter value passed explicitly. -/
def getUsecSince (now since : Nat) : Nat :=
  sub32 now since

end V2Base

namespace V2Buttons

/-- `V2Buttons::Config`. -/
structure Config where
  clickUsec : Nat
  holdUsec : Nat
deriving DecidableEq

/-- `V2Buttons::Button::State`. -/
inductive State
  | Idle
  | WaitDown
  | Down
  | Hold
  | Up
  | Reset
deriving DecidableEq

/-- The virtual handler calls fired by `Button::loop()`, in call order. -/
inductive Ev
  | down
  | up
  | click (count : Nat)
  | hold (count : Nat)
  | release
deriving DecidableEq

/-- The mutable per-button fields of `V2Buttons::Button`. -/
structure Button where
  state : State
  clicks : Nat
  usec : Nat
  event : Nat
  busy : Bool
deriving DecidableEq

/-- A freshly constructed `Button` (C++ member initializers). -/
def Button.init : Button :=
  { state := .Idle, clicks := 0, usec := 0, event := 0, busy := false }

/-- `getEvent()` accessor of `V2Buttons::Button`. -/
def Button.getEvent (b : Button) : Nat :=
  b.event

/-- `V2Buttons::Button::loop()`: one state-machine step.  Arguments: the
`_config` pointer of the button, the sampled pin level (`down`), the current
`micros()` value, and the global event counter `_buttons.event`.  Returns
the updated button, the updated global event counter, and the handler
calls made during the step.  The C++ return value is the `busy` field of
the returned button. -/
def Button.loop (cfg : Option Config) (down : Bool) (now gev : Nat) (b : Button) :
    Button × Nat × List Ev :=
  match b.state with
  | .Idle =>
    if down then
      ({ b with state := .WaitDown, usec := now, event := gev, busy := true },
        (gev + 1) % U32, [])
    else
      (b, gev, [])
  | .WaitDown =>
    if sub32 now b.usec < 5 * 1000 then
      (b, gev, [])
    else if down then
      ({ b with state := .Down }, gev, [.down])
    else
      ({ b with state := .Reset }, gev, [])
  | .Down =>
    if down then
      match cfg with
      | none => ({ b with busy := false }, gev, [])
      | some c =>
        if c.holdUsec = 0 then
          ({ b with busy := false }, gev, [])
        else if sub32 now b.usec < c.holdUsec then
          (b, gev, [])
        else
          ({ b with state := .Hold }, gev, [.hold b.clicks])
    else
      ({ b with state := .Up, usec := now, busy := true }, gev, [])
  | .Hold =>
    if down then
      ({ b with busy := false }, gev, [])
    else
      ({ b with state := .Reset, busy := true }, gev, [.release, .up])
  | .Up =>
    match cfg with
    | some c =>
      if 0 < c.clickUsec then
        if down then
          ({ b with state := .Down, clicks := (b.clicks + 1) % 256, usec := now }, gev, [])
        else if sub32 now b.usec < c.clickUsec then
          (b, gev, [])
        else
          ({ b with state := .Reset }, gev, [.click b.clicks, .up])
      else
        ({ b with state := .Reset }, gev, [.click b.clicks, .up])
    | none =>
      ({ b with state := .Reset }, gev, [.click b.clicks, .up])
  | .Reset =>
    ({ b with state := .Idle, clicks := 0, busy := false, event := 0 }, gev, [])

/-- Run `Button::loop()` over a list of `(micros(), pin level)` samples,
threading the global event counter and concatenating the handler calls. -/
def Button.run (cfg : Option Config) : List (Nat × Bool) → Nat → Button → Button × Nat × List Ev
  | [], gev, b => (b, gev, [])
  | s :: rest, gev, b =>
    let r := Button.loop cfg s.2 s.1 gev b
    let r2 := Button.run cfg rest r.2.1 r.1
    (r2.1, r2.2.1, r.2.2 ++ r2.2.2)

/-- The static `_buttons` globals: last-check time, event counter, the
registered button list, and the interrupt-set busy flag. -/
structure Globals where
  usec : Nat
  event : Nat
  list : List Button
  busy : Bool
deriving DecidableEq

/-- Static initialization of `_buttons` (`volatile bool busy{true}`). -/
def Globals.init : Globals :=
  { usec := 0, event := 0, list := [], busy := true }

/-- The scan loop body of `V2Buttons::loop()`: run the `loop()`
of every button, OR-ing the returned busy flags.  Each button is paired with its
`_config` and sampled pin level. -/
def scan (now : Nat) : List ((Option Config × Bool) × Button) → Nat → List Button × Nat × Bool
  | [], gev => ([], gev, false)
  | e :: rest, gev =>
    let r := Button.loop e.1.1 e.1.2 now gev e.2
    let rr := scan now rest r.2.1
    (r.1 :: rr.1, rr.2.1, rr.2.2 || r.1.busy)

/-- `V2Buttons::loop()`: the global dispatcher.  `inputs` supplies each
config and sampled pin level of each registered button, in list order.  The
returned `Bool` records whether the button list was scanned on this
call. -/
def loop (now : Nat) (inputs : List (Option Config × Bool)) (g : Globals) : Globals × Bool :=
  if g.busy = false then
    (g, false)
  else if sub32 now g.usec < 1000 then
    (g, false)
  else
    let r := scan now (inputs.zip g.list) g.event
    ({ usec := now, event := r.2.1, list := r.1, busy := r.2.2 }, true)

/-- The sample trace of press/release pairs: for each `(p, r)` the pin is
sampled asserted at time `p` and deasserted at time `r`. -/
def cyclesTrace : List (Nat × Nat) → List (Nat × Bool)
  | [] => []
  | pr :: rest => (pr.1, true) :: (pr.2, false) :: cyclesTrace rest

/-- The time of the last release of a press/release pair list (`u` when
the list is empty). -/
def lastRel (u : Nat) : List (Nat × Nat) → Nat
  | [] => u
  | pr :: rest => lastRel pr.2 rest

/-- Each re-press happens within `clickUsec` of the preceding release
(`u` is the time of the release preceding the first pair). -/
def gapsOk (c : Config) (u : Nat) : List (Nat × Nat) → Prop
  | [] => True
  | pr :: rest => sub32 pr.1 u < c.clickUsec ∧ gapsOk c pr.2 rest

instance (c : Config) (u : Nat) (l : List (Nat × Nat)) : Decidable (gapsOk c u l) := by
  induction l generalizing u with
  | nil => exact .isTrue trivial
  | cons pr rest ih => exact @instDecidableAnd _ _ _ (ih pr.2)

/-- 256 press/release pairs for the 257-cycle click-count run: re-press
1000 µs after each release. -/
def cexPairs : List (Nat × Nat) :=
  (List.range 256).map fun i => (7000 + 2000 * i, 8000 + 2000 * i)

/-- A full 257-cycle trace: initial press at 0, debounce sample at 5 ms,
release at 6 ms, 256 rapid re-press/release cycles, then a final
deasserted sample after the click window. -/
def cexTrace : List (Nat × Bool) :=
  (0, true) :: (5000, true) :: (6000, false) :: cyclesTrace cexPairs ++ [(718000, false)]

/-- The config used by the 257-cycle run: `clickUsec` 200 ms, no hold. -/
def cexConfig : Config :=
  { clickUsec := 200000, holdUsec := 0 }

/-- Dispatcher state with one registered button, used as concrete input. -/
def gOne : Globals :=
  { Globals.init with list := [Button.init] }

end V2Buttons

namespace V2Solenoids

/-- `V2Solenoids<nPorts>::Configuration` (flattened nested structs). -/
structure Configuration where
  currentMax : ℚ
  currentAlpha : ℚ
  resistanceMin : ℚ
  resistanceMax : ℚ
  fadeInSec : ℚ
  fadeOutSec : ℚ
  holdPeakUsec : Nat
  holdFraction : ℚ
deriving DecidableEq

/-- `V2Solenoids::DriverState`. -/
inductive DriverState
  | Idle
  | FadeIn
  | Peak
  | Hold
  | FadeOut
deriving DecidableEq

/-- `V2Solenoids::CoilState`. -/
inductive CoilState
  | NotConnected
  | Connected
  | ShortCircuit
deriving DecidableEq

/-- `V2Solenoids::ProbeState`. -/
inductive ProbeState
  | Init
  | Settle
  | Measure
  | Sleep
deriving DecidableEq

/-- The per-port `pulse` descriptor (nested struct of `_ports[]`). -/
structure Pulse where
  startUsec : Nat
  peekUsec : Nat
  durationUsec : Nat
  fadeIn : Bool
  fadeOut : Bool
  dutyTarget : ℚ
  dutyDelta : ℚ
deriving DecidableEq

/-- Zero-initialized pulse descriptor (`_ports[port].pulse = {}`). -/
def Pulse.empty : Pulse :=
  { startUsec := 0, peekUsec := 0, durationUsec := 0,
    fadeIn := false, fadeOut := false, dutyTarget := 0, dutyDelta := 0 }

/-- The per-port `measure` fields (coil classification and filter state). -/
structure Measure where
  state : CoilState
  resistance : ℚ
  voltage : ℚ
deriving DecidableEq

/-- One element of `_ports[nPorts]`. -/
structure Port where
  state : DriverState
  duty : ℚ
  measure : Measure
  pulse : Pulse
deriving DecidableEq

/-- Zero-initialized port (`_ports[nPorts]{}`). -/
def Port.default : Port :=
  { state := .Idle, duty := 0,
    measure := { state := .NotConnected, resistance := 0, voltage := 0 },
    pulse := Pulse.empty }

/-- The `_probe` global state machine fields. -/
structure Probe where
  state : ProbeState
  settleUsec : Nat
  port : Nat
  measureUsec : Nat
  sleepUsec : Nat
  cycle : Nat
  ready : Bool
deriving DecidableEq

/-- Zero-initialized probe (`_probe = {}`). -/
def Probe.empty : Probe :=
  { state := .Init, settleUsec := 0, port := 0, measureUsec := 0,
    sleepUsec := 0, cycle := 0, ready := false }

/-- The mutable state of a `V2Solenoids<nPorts>` instance; the number of
ports is `ports.length`. -/
structure Machine where
  config : Configuration
  loopUsec : Nat
  powerUsec : Nat
  timeoutUsec : Nat
  probe : Probe
  current : ℚ
  ports : List Port
deriving DecidableEq

/-- The analog inputs read during one `loop()` call: the `micros()`
value and the values returned by the `readCurrent()` /
`readResistanceVoltage()` capabilities. -/
structure Input where
  now : Nat
  readCurrent : ℚ
  readResistanceVoltage : ℚ
deriving DecidableEq

/-- `releasePort(port)`: duty 0, state `Idle`, clear the pulse.  The
`setPWMDuty(port, 0)` and `updateLED(port)` calls are hardware effects
with no controller state. -/
def releasePort (p : Port) : Port :=
  { p with state := .Idle, duty := 0, pulse := Pulse.empty }

/-- `fadeOutPort(port)` fused with its only use site
`if (!fadeOutPort(i)) releasePort(i)`: start the fade-out ramp when the
pulse requests it and the duty is not negligible, release otherwise. -/
def fadeOutOrRelease (cfg : Configuration) (p : Port) : Port :=
  if p.pulse.fadeOut = true ∧ ¬ p.duty < 1 / 100 then
    { p with pulse := { p.pulse with dutyDelta := p.duty / (cfg.fadeOutSec * 1000) },
             state := .FadeOut }
  else
    releasePort p

/-- The per-port `switch (_ports[i].state)` body of `loop()` (the
`setPWMDuty` calls are hardware effects). -/
def portStep (cfg : Configuration) (now : Nat) (p : Port) : Port :=
  match p.state with
  | .Idle => p
  | .FadeIn =>
    let p1 := { p with duty := p.duty + p.pulse.dutyDelta }
    if p1.pulse.dutyTarget ≤ p1.duty then
      { p1 with pulse := { p1.pulse with peekUsec := now }, state := .Peak }
    else
      p1
  | .Peak =>
    if cfg.holdPeakUsec < sub32 now p.pulse.peekUsec then
      { p with duty := p.duty * cfg.holdFraction, state := .Hold }
    else if sub32 now p.pulse.startUsec < p.pulse.durationUsec then
      p
    else
      fadeOutOrRelease cfg p
  | .Hold =>
    if sub32 now p.pulse.startUsec < p.pulse.durationUsec then
      p
    else
      fadeOutOrRelease cfg p
  | .FadeOut =>
    let p1 := { p with duty := p.duty - p.pulse.dutyDelta }
    if p1.duty ≤ 0 then
      releasePort p1
    else
      p1

/-- `measureCurrent()`: exponential low-pass filter of `readCurrent()`,
or the raw sample when the filter coefficient is not positive. -/
def measureCurrent (cfg : Configuration) (current readCur : ℚ) : ℚ :=
  if 0 < cfg.currentAlpha then
    current * (1 - cfg.currentAlpha) + readCur * cfg.currentAlpha
  else
    readCur

/-- Update the `i`-th port of the array. -/
def modifyPort : List Port → Nat → (Port → Port) → List Port
  | [], _, _ => []
  | p :: rest, 0, f => f p :: rest
  | p :: rest, n + 1, f => p :: modifyPort rest n f

/-- `measureResistance()`: seed + exponential low-pass filter (α = 0.3)
of the divider voltage, conversion to resistance
(`((vOut - 0.3) * 100) / (3.3 - vOut)`), coil classification against the
configured range, and the `_timeoutUsec` refresh on a classification
change.  Returns the updated port array and `_timeoutUsec`.  Rational
division is total (`x / 0 = 0`); the C++ float division only hits the
zero denominator at `vOut` exactly `3.3`. -/
def measureResistance (cfg : Configuration) (now : Nat) (vRead : ℚ) (i : Nat)
    (ports : List Port) (timeoutUsec : Nat) : List Port × Nat :=
  let p := ports.getD i Port.default
  let v0 := if p.measure.voltage < 0 then vRead else p.measure.voltage
  let v1 := v0 * (1 - 3 / 10) + vRead * (3 / 10)
  let r := ((v1 - 3 / 10) * 100) / (33 / 10 - v1)
  let st :=
    if cfg.resistanceMax < r then CoilState.NotConnected
    else if r < cfg.resistanceMin then CoilState.ShortCircuit
    else CoilState.Connected
  let t := if st ≠ p.measure.state then now else timeoutUsec
  (modifyPort ports i fun q =>
      { q with measure := { state := st, resistance := r, voltage := v1 } },
    t)

/-- The `switch (_probe.state)` tail of `loop()`: the background
resistance-probing state machine.  `port` and `cycle` are `uint8_t`. -/
def probeStep (inp : Input) (s : Machine) : Machine :=
  match s.probe.state with
  | .Init =>
    let pr := { s.probe with settleUsec := inp.now, state := ProbeState.Settle }
    if pr.ready = false then
      { s with probe := { pr with cycle := 0 } }
    else
      { s with probe := pr }
  | .Settle =>
    if sub32 inp.now s.probe.settleUsec < 200 * 1000 then
      s
    else
      { s with probe := { s.probe with measureUsec := inp.now, state := ProbeState.Measure } }
  | .Measure =>
    if sub32 inp.now s.probe.measureUsec < 10 * 1000 then
      s
    else
      let mr := measureResistance s.config inp.now inp.readResistanceVoltage
        s.probe.port s.ports s.timeoutUsec
      let s1 : Machine := { s with ports := mr.1, timeoutUsec := mr.2 }
      let pr1 : Probe := { s1.probe with port := (s1.probe.port + 1) % 256 }
      let pr2 : Probe :=
        if pr1.port = s1.ports.length then
          let pra := { pr1 with port := 0 }
          if pra.ready = false then
            let prb := { pra with cycle := (pra.cycle + 1) % 256 }
            if 10 < prb.cycle then { prb with ready := true } else prb
          else
            pra
        else
          pr1
      if s1.timeoutUsec = 0 then
        { s1 with probe := { pr2 with sleepUsec := inp.now, state := ProbeState.Sleep } }
      else
        { s1 with probe := { pr2 with measureUsec := inp.now } }
  | .Sleep =>
    if sub32 inp.now s.probe.sleepUsec < 1000 * 1000 then
      s
    else
      { s with probe := { s.probe with measureUsec := inp.now, state := ProbeState.Measure } }

/-- `V2Solenoids::loop()`: rate limit, LED timeout, the drive machine of every port; then
state machine, the current filter, the over-current cutoff, the delayed
power-off, and the probe state machine.  `setPower` / `setLED` /
`setPWMDuty` calls are hardware effects with no controller state. -/
def loop (inp : Input) (s : Machine) : Machine :=
  if sub32 inp.now s.loopUsec < 1000 then
    s
  else
    let s1 := { s with loopUsec := inp.now }
    let s2 :=
      if 0 < s1.timeoutUsec ∧ 60 * 1000 * 1000 < sub32 inp.now s1.timeoutUsec then
        { s1 with timeoutUsec := 0 }
      else
        s1
    let busy := s2.ports.any fun p => decide (p.state ≠ DriverState.Idle)
    let s3 := { s2 with ports := s2.ports.map (portStep s2.config inp.now) }
    let s4 := { s3 with current := measureCurrent s3.config s3.current inp.readCurrent }
    if s4.config.currentMax < s4.current then
      { s4 with ports := s4.ports.map releasePort, probe := Probe.empty }
    else if busy then
      s4
    else if 0 < s4.powerUsec then
      if sub32 inp.now s4.powerUsec < 200 * 1000 then
        s4
      else
        probeStep inp { s4 with powerUsec := 0 }
    else
      probeStep inp s4

/-- A concrete controller state with one port actively driving (Peak) and
one idle, probe qualified, used as concrete input for the over-current
cutoff. -/
def machineW : Machine :=
  { config := { currentMax := 1, currentAlpha := 0, resistanceMin := 6,
                resistanceMax := 60, fadeInSec := 35 / 100, fadeOutSec := 35 / 100,
                holdPeakUsec := 100000, holdFraction := 1 / 2 }
  , loopUsec := 0, powerUsec := 0, timeoutUsec := 5
  , probe := { Probe.empty with ready := true, state := .Measure }
  , current := 0
  , ports :=
      [ { state := .Peak, duty := 1 / 2,
          measure := { state := .Connected, resistance := 20, voltage := 2 },
          pulse := { startUsec := 0, peekUsec := 0, durationUsec := 500000,
                     fadeIn := false, fadeOut := false, dutyTarget := 1 / 2,
                     dutyDelta := 0 } },
        Port.default ] }

/-- Loop inputs seeing a 2 A raw current against the 1 A maximum. -/
def inputW : Input :=
  { now := 2000, readCurrent := 2, readResistanceVoltage := 1 }

end V2Solenoids

namespace V2Device

/-- The decoded content of an incoming SysEx buffer, abstracting the
byte-level framing and the ArduinoJson document of
`V2Device::handleSystemExclusive`: the raw length, `buffer[1]`, the JSON
brace framing check, the parser outcome, the presence of the
`com.versioduo.device` object, the `token` field (`none` when null/absent),
the `method` string, and the presence/validity flags the individual
method handlers test. -/
structure SysEx where
  len : Nat
  vendor : Nat
  bracesOk : Bool
  parseOk : Bool
  hasDeviceObject : Bool
  token : Option Nat
  method : String
  hasChannel : Bool
  hasConfiguration : Bool
  hasFirmware : Bool
  firmwareOffsetAligned : Bool
  firmwareHasHash : Bool
  firmwareHashValid : Bool
deriving DecidableEq

/-- The externally visible actions a `handleSystemExclusive` call can
take: replies sent over the transport and device-state changes (EEPROM
writes, USB settings, reboots, firmware flashing). -/
inductive Effect
  | sendReply
  | eraseEEPROM
  | reboot
  | enablePortsAccess
  | switchChannel
  | writeConfig
  | sendFirmwareStatus (status : String)
  | writeFlashBlock
  | activateFirmware
deriving DecidableEq

/-- The token guard `!jsonDevice["token"].isNull() && jsonDevice["token"] != _boot.id`. -/
def tokenMismatch (bootId : Nat) : Option Nat → Bool
  | none => false
  | some t => decide (t ≠ bootId)

/-- `V2Device::handleSystemExclusive`, as the list of effects it
performs; `[]` means the request is ignored (reply-free, state-free early
return).  The body of the `writeConfiguration` handler (USB name/vid/pid/
ports fields, `importConfiguration`, EEPROM write) is abstracted into the
single `writeConfig` effect; the `writeFirmware` handler keeps its
status-reply structure. -/
def handleSystemExclusive (bootId : Nat) (m : SysEx) : List Effect :=
  if m.len < 24 then []
  else if m.vendor ≠ 0x7d then []
  else if m.bracesOk = false then []
  else if m.parseOk = false then []
  else if m.hasDeviceObject = false then []
  else if tokenMismatch bootId m.token then []
  else if m.method = "getAll" then [.sendReply]
  else if m.method = "eraseConfiguration" then [.eraseEEPROM, .reboot]
  else if m.method = "switchChannel" then
    if m.hasChannel then [.switchChannel, .sendReply] else [.sendReply]
  else if m.method = "reboot" then [.reboot]
  else if m.method = "rebootWithPorts" then [.enablePortsAccess, .reboot]
  else if m.method = "writeConfiguration" then
    if m.hasConfiguration then [.writeConfig, .sendReply] else [.sendReply]
  else if m.method = "writeFirmware" then
    if m.hasFirmware then
      if m.firmwareOffsetAligned = false then [.sendFirmwareStatus "invalidOffset"]
      else
        .writeFlashBlock ::
          (if m.firmwareHasHash then
            if m.firmwareHashValid then [.sendFirmwareStatus "success", .activateFirmware]
            else [.sendFirmwareStatus "hashMismatch"]
          else [.sendFirmwareStatus "success"])
    else []
  else []

/-- A well-formed request carrying a mismatching token, used as the
concrete input of the C10 witness. -/
def mismatchMsg : SysEx :=
  { len := 64, vendor := 0x7d, bracesOk := true, parseOk := true,
    hasDeviceObject := true, token := some 5, method := "getAll",
    hasChannel := false, hasConfiguration := false, hasFirmware := false,
    firmwareOffsetAligned := true, firmwareHasHash := false,
    firmwareHashValid := false }

end V2Device

/-- C7: every timing comparison computes elapsed time as the unsigned
32-bit subtraction of the monotonic microsecond counter; for any true
instants `t0 ≤ t1` the counter holds `t0 % 2^32` and `t1 % 2^32`, the
computed elapsed value equals the true elapsed duration modulo `2^32`,
and for a window of at most `2^32` a true elapsed duration below the
window is never reported as elapsed, even across counter wraparound. -/
theorem C7_usec_wraparound (t0 t1 window : Nat) (h01 : t0 ≤ t1) (hw : window ≤ U32) :
    V2Base.getUsecSince (t1 % U32) (t0 % U32) = (t1 - t0) % U32 ∧
    (t1 - t0 < window → ¬ window ≤ V2Base.getUsecSince (t1 % U32) (t0 % U32)) := by
  unfold V2Base.getUsecSince sub32 U32
  unfold U32 at hw
  omega

theorem C7_usec_wraparound_witness :
    V2Base.getUsecSince ((U32 + 500) % U32) (4294967000 % U32) = (U32 + 500 - 4294967000) % U32 ∧
    (U32 + 500 - 4294967000 < 1000 →
      ¬ 1000 ≤ V2Base.getUsecSince ((U32 + 500) % U32) (4294967000 % U32)) :=
  C7_usec_wraparound 4294967000 (U32 + 500) 1000 (by decide) (by decide)

/-- C1 counterexample: with the global busy flag set by an interrupt but
less than 1 ms elapsed since the previous scan (`usec = 0`, call at
`micros() = 500`), `V2Buttons::loop()` does not scan the button list on
that call — it returns with the state unchanged.  The claim that the list
is scanned on that very call regardless of the 1 ms rate limit is false. -/
theorem C1_busy_scan_cex :
    V2Buttons.gOne.busy = true ∧
    (V2Buttons.loop 500 [(none, true)] V2Buttons.gOne).2 = false ∧
    (V2Buttons.loop 500 [(none, true)] V2Buttons.gOne).1 = V2Buttons.gOne := by
  decide

/-- C1 (amended): the busy flag, not the timer, decides whether scanning
happens at all, and the timer decides when: a call to `V2Buttons::loop()`
scans the button list exactly when the global busy flag is set and at
least 1 ms has elapsed since the previous scan; with the flag clear no
scan happens regardless of the timer. -/
theorem C1_busy_gates_timer_schedules (now : Nat)
    (inputs : List (Option V2Buttons.Config × Bool)) (g : V2Buttons.Globals) :
    (V2Buttons.loop now inputs g).2 = (g.busy && !decide (sub32 now g.usec < 1000)) := by
  unfold V2Buttons.loop
  rcases hb : g.busy <;> simp [hb] <;> split <;> simp_all

/-- C8: if the busy flag is set but less than 1 ms has elapsed,
`V2Buttons::loop()` returns with the whole dispatcher state unchanged —
in particular the busy flag stays set, so the interrupt-signalled wake-up
is deferred, never lost — and the button list is scanned on the first
later call at which the rate limit has expired. -/
theorem C8_deferred_wakeup_not_lost (g : V2Buttons.Globals)
    (inputs : List (Option V2Buttons.Config × Bool)) (now now2 : Nat)
    (hb : g.busy = true)
    (hEarly : sub32 now g.usec < 1000)
    (hLate : 1000 ≤ sub32 now2 g.usec) :
    V2Buttons.loop now inputs g = (g, false) ∧
    (V2Buttons.loop now2 inputs g).2 = true := by
  unfold V2Buttons.loop
  simp [hb, hEarly, Nat.not_lt.mpr hLate]

theorem C8_deferred_wakeup_not_lost_witness :
    V2Buttons.loop 500 [(none, false)] V2Buttons.gOne = (V2Buttons.gOne, false) ∧
    (V2Buttons.loop 2000 [(none, false)] V2Buttons.gOne).2 = true :=
  C8_deferred_wakeup_not_lost V2Buttons.gOne [(none, false)] 500 2000 rfl
    (by decide) (by decide)

/-- C6: `_event` is assigned exactly on the transition out of Idle,
taking the current value of the global sequence counter (which is then
incremented modulo `2^32`); every other transition leaves `_event`
unchanged, except Reset, which clears it to 0.  Likewise the global
counter is touched only by the wake-up out of Idle. -/
theorem C6_event_assigned_once (cfg : Option V2Buttons.Config) (down : Bool)
    (now gev : Nat) (b : V2Buttons.Button) :
    (V2Buttons.Button.loop cfg down now gev b).1.event
      = (match b.state with
         | .Idle => if down then gev else b.event
         | .Reset => 0
         | _ => b.event) ∧
    (V2Buttons.Button.loop cfg down now gev b).2.1
      = (if b.state = .Idle ∧ down = true then (gev + 1) % U32 else gev) := by
  obtain ⟨st, ck, us, ev, bz⟩ := b
  cases st <;> cases down <;> cases cfg <;>
    simp only [V2Buttons.Button.loop] <;> (try split_ifs) <;> simp_all

/-- C9: `getEvent()` reads 0 for a freshly constructed (idle) button and
also for the very first event sequence after startup, because the global
counter starts at 0 and Reset writes 0 back — so event id 0 does not
uniquely identify one interaction; every wake-up out of Idle takes the
current counter value as its id and bumps the shared counter by one
modulo `2^32`, so later wake-ups of any button get successively larger
ids (modulo `2^32`). -/
theorem C9_event_zero_ambiguous (cfg : Option V2Buttons.Config)
    (now gev ck us ev : Nat) (bz : Bool) :
    V2Buttons.Globals.init.event = 0 ∧
    V2Buttons.Button.init.getEvent = 0 ∧
    (V2Buttons.Button.loop cfg true now V2Buttons.Globals.init.event
        V2Buttons.Button.init).1.getEvent = 0 ∧
    (V2Buttons.Button.loop cfg false now gev ⟨.Reset, ck, us, ev, bz⟩).1.getEvent = 0 ∧
    (V2Buttons.Button.loop cfg true now gev ⟨.Idle, ck, us, ev, bz⟩).1.getEvent = gev ∧
    (V2Buttons.Button.loop cfg true now gev ⟨.Idle, ck, us, ev, bz⟩).2.1 = (gev + 1) % U32 := by
  refine ⟨rfl, rfl, rfl, ?_, ?_, ?_⟩ <;>
    simp [V2Buttons.Button.loop, V2Buttons.Button.getEvent]

theorem released_step_quiet (cfg : Option V2Buttons.Config) (now gev : Nat)
    (b : V2Buttons.Button)
    (h : b.state = .WaitDown ∨ b.state = .Reset ∨ b.state = .Idle) :
    ((V2Buttons.Button.loop cfg false now gev b).1.state = .WaitDown ∨
     (V2Buttons.Button.loop cfg false now gev b).1.state = .Reset ∨
     (V2Buttons.Button.loop cfg false now gev b).1.state = .Idle) ∧
    (V2Buttons.Button.loop cfg false now gev b).2.2 = [] := by
  obtain ⟨st, ck, us, ev, bz⟩ := b
  rcases h with h | h | h <;> cases h <;>
    simp only [V2Buttons.Button.loop] <;> (try split_ifs) <;> simp_all

theorem released_run_quiet (cfg : Option V2Buttons.Config)
    (samples : List (Nat × Bool)) (gev : Nat) (b : V2Buttons.Button)
    (h : b.state = .WaitDown ∨ b.state = .Reset ∨ b.state = .Idle)
    (hdown : ∀ s ∈ samples, s.2 = false) :
    (V2Buttons.Button.run cfg samples gev b).2.2 = [] := by
  revert h hdown
  induction samples generalizing gev b with
  | nil =>
    intro h hdown
    rfl
  | cons s rest ih =>
    intro h hdown
    obtain ⟨t, d⟩ := s
    have hd : d = false := hdown (t, d) (List.mem_cons_self _ _)
    subst hd
    have hstep := released_step_quiet cfg t gev b h
    simp only [V2Buttons.Button.run]
    rw [hstep.2, List.nil_append]
    exact ih _ _ hstep.1 fun s hs => hdown s (List.mem_cons_of_mem _ hs)

/-- C2: a press shorter than the 5 ms debounce window — the pin reads
deasserted when the window is evaluated — never produces a Down or Click
event: the step that evaluates the window moves the machine from
WaitDown straight to Reset with no handler call, and any run of samples
with the pin deasserted starting from WaitDown emits no events at all. -/
theorem C2_short_press_no_events (cfg : Option V2Buttons.Config)
    (now gev ck us ev : Nat) (bz : Bool) (samples : List (Nat × Bool))
    (h5 : 5 * 1000 ≤ sub32 now us)
    (hdown : ∀ s ∈ samples, s.2 = false) :
    V2Buttons.Button.loop cfg false now gev ⟨.WaitDown, ck, us, ev, bz⟩
      = (⟨.Reset, ck, us, ev, bz⟩, gev, []) ∧
    (V2Buttons.Button.run cfg samples gev ⟨.WaitDown, ck, us, ev, bz⟩).2.2 = [] := by
  constructor
  · simp [V2Buttons.Button.loop, Nat.not_lt.mpr h5]
  · exact released_run_quiet cfg samples gev _ (Or.inl rfl) hdown

theorem C2_short_press_no_events_witness :
    V2Buttons.Button.loop none false 6000 7 ⟨.WaitDown, 0, 0, 3, true⟩
      = (⟨.Reset, 0, 0, 3, true⟩, 7, []) ∧
    (V2Buttons.Button.run none [(6000, false)] 7 ⟨.WaitDown, 0, 0, 3, true⟩).2.2 = [] :=
  C2_short_press_no_events none 6000 7 0 0 3 true [(6000, false)] (by decide) (by decide)

theorem hold_run_pressed (cfg : Option V2Buttons.Config) (ts : List Nat)
    (gev ck us ev : Nat) (bz : Bool) :
    ∃ bz2, V2Buttons.Button.run cfg (ts.map fun t => (t, true)) gev ⟨.Hold, ck, us, ev, bz⟩
      = (⟨.Hold, ck, us, ev, bz2⟩, gev, []) := by
  induction ts generalizing bz with
  | nil => exact ⟨bz, rfl⟩
  | cons t rest ih =>
    obtain ⟨bz2, h⟩ := ih false
    exact ⟨bz2, by simp [V2Buttons.Button.run, V2Buttons.Button.loop, h]⟩

theorem down_run_pressed_hold (c : V2Buttons.Config) (hc : c.holdUsec ≠ 0)
    (ts : List Nat) (gev ck us ev : Nat) (bz : Bool)
    (hEx : ∃ t ∈ ts, c.holdUsec ≤ sub32 t us) :
    ∃ bz2, V2Buttons.Button.run (some c) (ts.map fun t => (t, true)) gev
        ⟨.Down, ck, us, ev, bz⟩
      = (⟨.Hold, ck, us, ev, bz2⟩, gev, [.hold ck]) := by
  revert hEx
  induction ts generalizing bz with
  | nil =>
    intro hEx
    simp at hEx
  | cons t rest ih =>
    intro hEx
    by_cases hlt : sub32 t us < c.holdUsec
    · have hEx2 : ∃ t2 ∈ rest, c.holdUsec ≤ sub32 t2 us := by
        rcases hEx with ⟨t2, ht2, hge⟩
        rcases List.mem_cons.mp ht2 with h | hmem
        · subst h
          omega
        · exact ⟨t2, hmem, hge⟩
      obtain ⟨bz2, h⟩ := ih bz hEx2
      exact ⟨bz2, by simp [V2Buttons.Button.run, V2Buttons.Button.loop, hc, hlt, h]⟩
    · obtain ⟨bz2, h⟩ := hold_run_pressed (some c) rest gev ck us ev bz
      exact ⟨bz2, by simp [V2Buttons.Button.run, V2Buttons.Button.loop, hc, hlt, h]⟩

theorem button_run_append (cfg : Option V2Buttons.Config) (xs ys : List (Nat × Bool))
    (gev : Nat) (b : V2Buttons.Button) :
    V2Buttons.Button.run cfg (xs ++ ys) gev b
      = ((V2Buttons.Button.run cfg ys (V2Buttons.Button.run cfg xs gev b).2.1
            (V2Buttons.Button.run cfg xs gev b).1).1,
         (V2Buttons.Button.run cfg ys (V2Buttons.Button.run cfg xs gev b).2.1
            (V2Buttons.Button.run cfg xs gev b).1).2.1,
         (V2Buttons.Button.run cfg xs gev b).2.2 ++
           (V2Buttons.Button.run cfg ys (V2Buttons.Button.run cfg xs gev b).2.1
              (V2Buttons.Button.run cfg xs gev b).1).2.2) := by
  induction xs generalizing gev b with
  | nil => simp [V2Buttons.Button.run]
  | cons x rest ih => simp [V2Buttons.Button.run, ih]

/-- C3: with a nonzero `holdUsec` configured, a press that stays asserted
and reaches the hold window produces exactly one `handleHold` call (with
the click count, 0 here) and no `handleClick`; the subsequent release
from Hold calls `handleRelease` then `handleUp` and moves the machine to
Reset.  The run starts from a fresh button: press sampled at `t0`,
debounce check at `t1`, pressed samples `ts` of which at least one
reaches the hold window, release sampled at `tr`. -/
theorem C3_hold_once_never_click (c : V2Buttons.Config) (hc : c.holdUsec ≠ 0)
    (t0 t1 tr gev : Nat) (ts : List Nat)
    (h5 : 5 * 1000 ≤ sub32 t1 t0)
    (hEx : ∃ t ∈ ts, c.holdUsec ≤ sub32 t t0) :
    (V2Buttons.Button.run (some c)
        ((t0, true) :: (t1, true) :: (ts.map fun t => (t, true)) ++ [(tr, false)])
        gev V2Buttons.Button.init).2.2 = [.down, .hold 0, .release, .up] ∧
    (V2Buttons.Button.run (some c)
        ((t0, true) :: (t1, true) :: (ts.map fun t => (t, true)) ++ [(tr, false)])
        gev V2Buttons.Button.init).1.state = .Reset := by
  obtain ⟨bz2, hmid⟩ :=
    down_run_pressed_hold c hc ts ((gev + 1) % U32) 0 t0 gev true hEx
  have happ := button_run_append (some c) (ts.map fun t => (t, true)) [(tr, false)]
    ((gev + 1) % U32) ⟨.Down, 0, t0, gev, true⟩
  rw [hmid] at happ
  constructor <;>
    simp [V2Buttons.Button.run, V2Buttons.Button.loop, V2Buttons.Button.init,
      Nat.not_lt.mpr h5, happ]

theorem C3_hold_once_never_click_witness :
    (V2Buttons.Button.run (some ⟨0, 500000⟩)
        ((0, true) :: (5000, true) :: ([600000].map fun t => (t, true)) ++ [(700000, false)])
        0 V2Buttons.Button.init).2.2 = [.down, .hold 0, .release, .up] ∧
    (V2Buttons.Button.run (some ⟨0, 500000⟩)
        ((0, true) :: (5000, true) :: ([600000].map fun t => (t, true)) ++ [(700000, false)])
        0 V2Buttons.Button.init).1.state = .Reset :=
  C3_hold_once_never_click ⟨0, 500000⟩ (by decide) 0 5000 700000 0 [600000]
    (by decide) ⟨600000, by decide, by decide⟩

theorem up_run_cycles (c : V2Buttons.Config) (hck : 0 < c.clickUsec)
    (prs : List (Nat × Nat)) (gev : Nat) :
    ∀ (ck us ev : Nat), ck < 256 →
      V2Buttons.Button.run (some c) (V2Buttons.cyclesTrace prs) gev ⟨.Up, ck, us, ev, true⟩
        = (⟨.Up, (ck + prs.length) % 256, V2Buttons.lastRel us prs, ev, true⟩, gev, []) := by
  induction prs with
  | nil =>
    intro ck us ev hck2
    simp [V2Buttons.cyclesTrace, V2Buttons.Button.run, V2Buttons.lastRel,
      Nat.mod_eq_of_lt hck2]
  | cons pr rest ih =>
    intro ck us ev hck2
    have h2 := ih ((ck + 1) % 256) pr.2 ev (Nat.mod_lt _ (by norm_num))
    simp [V2Buttons.cyclesTrace, V2Buttons.Button.run, V2Buttons.Button.loop,
      hck, h2, V2Buttons.lastRel]
    omega

/-- C4 (amended): with a nonzero `clickUsec` configured, a sequence of
`N = prs.length + 1` press/release cycles in which each re-press occurs
within `clickUsec` of the preceding release produces exactly one
`handleClick` call for the whole sequence, and its count argument is
`(N - 1) mod 256` — the click counter is a `uint8_t` and wraps, so for
257 or more cycles the count is not `N - 1` itself. -/
theorem C4_one_click_count_mod256 (c : V2Buttons.Config) (hck : 0 < c.clickUsec)
    (t0 t1 r0 tEnd gev : Nat) (prs : List (Nat × Nat))
    (h5 : 5 * 1000 ≤ sub32 t1 t0)
    (hGaps : V2Buttons.gapsOk c r0 prs)
    (hEnd : c.clickUsec ≤ sub32 tEnd (V2Buttons.lastRel r0 prs)) :
    (V2Buttons.Button.run (some c)
        ((t0, true) :: (t1, true) :: (r0, false) ::
          V2Buttons.cyclesTrace prs ++ [(tEnd, false)])
        gev V2Buttons.Button.init).2.2 = [.down, .click (prs.length % 256), .up] ∧
    (V2Buttons.Button.run (some c)
        ((t0, true) :: (t1, true) :: (r0, false) ::
          V2Buttons.cyclesTrace prs ++ [(tEnd, false)])
        gev V2Buttons.Button.init).1.state = .Reset := by
  have hmid := up_run_cycles c hck prs ((gev + 1) % U32) 0 r0 gev (by norm_num)
  have happ := button_run_append (some c) (V2Buttons.cyclesTrace prs) [(tEnd, false)]
    ((gev + 1) % U32) ⟨.Up, 0, r0, gev, true⟩
  rw [hmid] at happ
  constructor <;>
    simp [V2Buttons.Button.run, V2Buttons.Button.loop, V2Buttons.Button.init,
      Nat.not_lt.mpr h5, Nat.not_lt.mpr hEnd, hck, happ]

theorem C4_one_click_count_mod256_witness :
    (V2Buttons.Button.run (some ⟨200000, 0⟩)
        ((0, true) :: (5000, true) :: (6000, false) ::
          V2Buttons.cyclesTrace [(7000, 8000)] ++ [(208000, false)])
        0 V2Buttons.Button.init).2.2
      = [.down, .click ([(7000, 8000)].length % 256), .up] ∧
    (V2Buttons.Button.run (some ⟨200000, 0⟩)
        ((0, true) :: (5000, true) :: (6000, false) ::
          V2Buttons.cyclesTrace [(7000, 8000)] ++ [(208000, false)])
        0 V2Buttons.Button.init).1.state = .Reset :=
  C4_one_click_count_mod256 ⟨200000, 0⟩ (by decide) 0 5000 6000 208000 0
    [(7000, 8000)] (by decide) (by decide) (by decide)

set_option maxRecDepth 100000 in
/-- C4 counterexample: a sequence of 257 press/release cycles, each
re-press 1 ms after the preceding release (well within the 200 ms
`clickUsec`), produces a single `handleClick` whose count argument is 0 —
the `uint8_t` click counter wrapped — not `N - 1 = 256` as the claim
states. -/
theorem C4_click_count_257_cex :
    (V2Buttons.Button.run (some V2Buttons.cexConfig) V2Buttons.cexTrace 0
        V2Buttons.Button.init).2.2 = [.down, .click 0, .up] ∧
    (257 : Nat) - 1 ≠ 0 := by
  decide

/-- C5: whenever the filtered current exceeds the configured maximum, the
single `loop()` call that observes it (one whose 1 ms rate limit has
expired) releases every port — duty 0, state Idle, pulse cleared — and
resets the whole probe state, forcing `ready` back to false so all ports
re-qualify; the shutdown is unconditional. -/
theorem C5_overcurrent_release_all (inp : V2Solenoids.Input) (s : V2Solenoids.Machine)
    (hrate : 1000 ≤ sub32 inp.now s.loopUsec)
    (hover : s.config.currentMax
      < V2Solenoids.measureCurrent s.config s.current inp.readCurrent) :
    (∀ p ∈ (V2Solenoids.loop inp s).ports,
        p.state = V2Solenoids.DriverState.Idle ∧ p.duty = 0 ∧
        p.pulse = V2Solenoids.Pulse.empty) ∧
    (V2Solenoids.loop inp s).probe.ready = false ∧
    (V2Solenoids.loop inp s).probe = V2Solenoids.Probe.empty := by
  have hnl : ¬ sub32 inp.now s.loopUsec < 1000 := Nat.not_lt.mpr hrate
  by_cases ht : 0 < s.timeoutUsec ∧ 60 * 1000 * 1000 < sub32 inp.now s.timeoutUsec <;>
    simp [V2Solenoids.loop, hnl, ht, hover, V2Solenoids.releasePort, List.mem_map,
      V2Solenoids.Probe.empty]

theorem C5_overcurrent_release_all_witness :
    (∀ p ∈ (V2Solenoids.loop V2Solenoids.inputW V2Solenoids.machineW).ports,
        p.state = V2Solenoids.DriverState.Idle ∧ p.duty = 0 ∧
        p.pulse = V2Solenoids.Pulse.empty) ∧
    (V2Solenoids.loop V2Solenoids.inputW V2Solenoids.machineW).probe.ready = false ∧
    (V2Solenoids.loop V2Solenoids.inputW V2Solenoids.machineW).probe
      = V2Solenoids.Probe.empty :=
  C5_overcurrent_release_all V2Solenoids.inputW V2Solenoids.machineW
    (by decide)
    (by norm_num [V2Solenoids.measureCurrent, V2Solenoids.machineW, V2Solenoids.inputW])

/-- C10: `V2Device::handleSystemExclusive` ignores every JSON request
whose `token` field is present (non-null) and differs from the current
boot id of the device: the guard returns before any method dispatch, so no
reply is sent and no device state — EEPROM, configuration, USB settings,
firmware — is changed by such a request. -/
theorem C10_token_mismatch_ignored (bootId t : Nat) (m : V2Device.SysEx)
    (hTok : m.token = some t) (hNe : t ≠ bootId) :
    V2Device.handleSystemExclusive bootId m = [] := by
  have hMis : V2Device.tokenMismatch bootId m.token = true := by
    simp [V2Device.tokenMismatch, hTok, hNe]
  simp [V2Device.handleSystemExclusive, hMis]

theorem C10_token_mismatch_ignored_witness :
    V2Device.handleSystemExclusive 7 V2Device.mismatchMsg = [] :=
  C10_token_mismatch_ignored 7 5 V2Device.mismatchMsg rfl (by decide)
